import Mathlib

/-!
Shallow embedding of the precog-api-utility token lifecycle core
(`src/precog_api/auth.py` and `src/precog_api/client.py`).

Timestamps are modelled as rationals (seconds since an arbitrary epoch);
Python datetime arithmetic on them is exact addition/subtraction.  Network
interactions are modelled by explicit environment values describing the
outcome of each remote call, and every operation additionally reports the
number of network calls it performed and the resulting token-store state,
so that "performs no network call" and "does not mutate stored state"
become provable equalities.
-/

namespace Precog

/-- A timestamp field of the persisted token record as the Python code sees
it: absent (missing key, `None`, or empty string, all falsy), present but
unparseable by `datetime.fromisoformat`, or a parsed absolute time. -/
inductive TimeField where
  | absent
  | malformed
  | valid (t : ℚ)
deriving DecidableEq

/-- The persisted token record (`tokens.json`).  String fields are `Option`
because the Python code reads them with `dict.get` and treats missing or
falsy values as absent.  Per the writing sites in `auth.py`,
`access_expires_at` is the access-token expiry and `expires_at` is the
refresh-token expiry. -/
structure TokenRecord where
  access_token : Option String
  refresh_token : Option String
  access_expires_at : TimeField
  expires_at : TimeField
  wallet_name : Option String
  api_url : Option String
deriving DecidableEq

/-- The record `load_tokens` yields when the file is missing or fails to
parse: an empty dict, i.e. every field absent. -/
def emptyRecord : TokenRecord :=
  { access_token := none
    refresh_token := none
    access_expires_at := TimeField.absent
    expires_at := TimeField.absent
    wallet_name := none
    api_url := none }

/-- State of the on-disk token file. -/
inductive StoreState where
  | missing
  | malformed
  | parsed (r : TokenRecord)
deriving DecidableEq

/-- `load_tokens` (auth.py lines 154-166): returns the parsed record, or an
empty dict when the file is missing or unreadable; never raises. -/
def load_tokens : StoreState → TokenRecord
  | StoreState.parsed r => r
  | _ => emptyRecord

/-- The smart buffer of `_is_token_expired` (auth.py line 146):
`min(30, max(5, time_until_expiry * 0.1))`. -/
def smartBuffer (time_until_expiry : ℚ) : ℚ :=
  min 30 (max 5 (time_until_expiry * (1 / 10)))

/-- `_is_token_expired` (auth.py lines 133-151): absent timestamp is
expired; a parse failure is expired (bare `except`); otherwise expired once
`now >= expires_at - buffer`. -/
def is_token_expired (f : TimeField) (now : ℚ) : Bool :=
  match f with
  | TimeField.absent => true
  | TimeField.malformed => true
  | TimeField.valid t => decide (now ≥ t - smartBuffer (t - now))

/-- Body of a successful token response from `/auth/authenticate` or
`/auth/refresh`: `{access_token, refresh_token, expires_in,
refresh_expires_in?}`. -/
structure AuthTokensResponse where
  access_token : String
  refresh_token : String
  expires_in : ℚ
  refresh_expires_in : Option ℚ
deriving DecidableEq

/-- Outcome of one HTTP exchange against the refresh (or authenticate)
endpoint, as distinguished by the `try` block of `refresh_access_token`:
a transport failure, a non-2xx status (raised by `raise_for_status`), a
2xx body that fails to parse or lacks a required key, or a well-formed
token response. -/
inductive RefreshHttpResult where
  | transportError
  | httpError (status : ℕ)
  | malformedBody
  | ok (resp : AuthTokensResponse)
deriving DecidableEq

/-- The dict returned by `refresh_access_token` on success (auth.py lines
193-198). -/
structure RefreshedFields where
  access_token : String
  refresh_token : String
  access_expires_at : ℚ
  expires_at : ℚ
deriving DecidableEq

/-- `refresh_access_token` (auth.py lines 179-201): posts the refresh token
to `/auth/refresh`; on any failure (the catch-all `except`) returns `None`;
on success computes both expiries from one captured `now`, defaulting
`refresh_expires_in` to `expires_in` when absent. -/
def refresh_access_token (refresh_token api_url : String)
    (env : RefreshHttpResult) (now : ℚ) : Option RefreshedFields :=
  match env with
  | RefreshHttpResult.ok resp =>
      some { access_token := resp.access_token
             refresh_token := resp.refresh_token
             access_expires_at := now + resp.expires_in
             expires_at := now + resp.refresh_expires_in.getD resp.expires_in }
  | _ => none

/-- `tokens.update(refreshed)` (auth.py line 242): the four keys of the
refresh response overwrite the loaded record; every other key is kept. -/
def mergeRefreshed (r : TokenRecord) (f : RefreshedFields) : TokenRecord :=
  { r with
    access_token := some f.access_token
    refresh_token := some f.refresh_token
    access_expires_at := TimeField.valid f.access_expires_at
    expires_at := TimeField.valid f.expires_at }

/-- Result of `refresh_tokens_if_needed`: the returned boolean, the token
store after the call, and how many network calls were made. -/
structure RefreshResult where
  returned : Bool
  store : StoreState
  networkCalls : ℕ
deriving DecidableEq

/-- The tail of `refresh_tokens_if_needed` (auth.py lines 229-246), entered
once the refresh token is present and not known-expired: no
`access_expires_at` on record returns false; a malformed one raises
(`fromisoformat` is not guarded here), modelled as `none`; an access token
still more than 30 seconds from expiry returns false; otherwise the refresh
endpoint is called, and on success the merged record is saved. -/
def refreshStep (tokens : TokenRecord) (rt : String) (store : StoreState)
    (now : ℚ) (api_url : String) (env : RefreshHttpResult) :
    Option RefreshResult :=
  match tokens.access_expires_at with
  | TimeField.absent => some ⟨false, store, 0⟩
  | TimeField.malformed => none
  | TimeField.valid ae =>
      if now < ae - 30 then some ⟨false, store, 0⟩
      else
        match refresh_access_token rt api_url env now with
        | some f => some ⟨true, StoreState.parsed (mergeRefreshed tokens f), 1⟩
        | none => some ⟨false, store, 1⟩

/-- `refresh_tokens_if_needed` (auth.py lines 214-246).  The loaded record
is checked in order: missing/falsy `refresh_token` returns false; a present
`expires_at` (refresh-token expiry) is parsed — a malformed value raises,
modelled as `none` — and `now >= expires_at` returns false; then control
passes to `refreshStep`. -/
def refresh_tokens_if_needed (store : StoreState) (now : ℚ)
    (api_url : String) (env : RefreshHttpResult) : Option RefreshResult :=
  let tokens := load_tokens store
  match tokens.refresh_token with
  | none => some ⟨false, store, 0⟩
  | some rt =>
      match tokens.expires_at with
      | TimeField.malformed => none
      | TimeField.valid t =>
          if now ≥ t then some ⟨false, store, 0⟩
          else refreshStep tokens rt store now api_url env
      | TimeField.absent => refreshStep tokens rt store now api_url env

/-- `get_valid_access_token` (auth.py lines 204-212): requires a configured
wallet name, then returns the loaded record's `access_token` with no expiry
check of any kind. -/
def get_valid_access_token (wallet_name : Option String)
    (store : StoreState) : Option String :=
  match wallet_name with
  | none => none
  | some _ => (load_tokens store).access_token

/-- Transient challenge from `GET /auth/challenge`. -/
structure AuthChallenge where
  challenge_id : String
  challenge_text : String
deriving DecidableEq

/-- Environment of one `setup_authentication` attempt: the outcome of the
challenge request (`none` = network failure or non-2xx), of wallet signing
(`none` = wallet error; otherwise signature hex and coldkey address), and
of the authenticate request. -/
structure AuthEnv where
  challenge : Option AuthChallenge
  signing : Option (String × String)
  authenticate : Option AuthTokensResponse
deriving DecidableEq

/-- Result of `setup_authentication`: its boolean, the token store after
the call, and how many network calls were made. -/
structure SetupResult where
  returned : Bool
  store : StoreState
  networkCalls : ℕ
deriving DecidableEq

/-- The existing-token check of `setup_authentication` (auth.py lines
50-63): the attempt short-circuits to success exactly when the token file
exists, parses, and `_is_token_expired(tokens.get('expires_at'))` is
false.  Neither `access_token` presence nor `access_expires_at` is
consulted. -/
def setupShortCircuits (store : StoreState) (now : ℚ) : Bool :=
  match store with
  | StoreState.parsed r => ! is_token_expired r.expires_at now
  | _ => false

/-- `setup_authentication` (auth.py lines 19-130).  With no configured
wallet it fails immediately.  Otherwise, if the existing-token check
passes, it returns true with no network call.  Otherwise it performs the
challenge request (one network call), wallet signing, and the authenticate
request (a second network call), any failure returning false, and on
success persists the full record with both expiries computed from the one
captured `now` (`refresh_expires_in` defaulting to `expires_in`). -/
def setup_authentication (wallet_name : Option String) (api_url : String)
    (store : StoreState) (now : ℚ) (env : AuthEnv) : SetupResult :=
  match wallet_name with
  | none => ⟨false, store, 0⟩
  | some wn =>
      if setupShortCircuits store now then ⟨true, store, 0⟩
      else
        match env.challenge with
        | none => ⟨false, store, 1⟩
        | some _ch =>
            match env.signing with
            | none => ⟨false, store, 1⟩
            | some _sig =>
                match env.authenticate with
                | none => ⟨false, store, 2⟩
                | some resp =>
                    ⟨true,
                     StoreState.parsed
                       { access_token := some resp.access_token
                         refresh_token := some resp.refresh_token
                         access_expires_at :=
                           TimeField.valid (now + resp.expires_in)
                         expires_at :=
                           TimeField.valid
                             (now + resp.refresh_expires_in.getD resp.expires_in)
                         wallet_name := some wn
                         api_url := some api_url },
                     2⟩

/-- The header dict built by `PrecogClient._get_headers` (client.py lines
63-74). -/
structure Headers where
  authorization : String
  content_type : String
deriving DecidableEq

/-- `_get_headers`: raises (modelled as `none`) when no access token is
available, else a bearer header around the raw stored token. -/
def get_headers (wallet_name : Option String) (store : StoreState) :
    Option Headers :=
  match get_valid_access_token wallet_name store with
  | none => none
  | some t => some ⟨"Bearer " ++ t, "application/json"⟩

/-- Outcome of one `session.get` + `raise_for_status` in `_make_request`:
a 2xx with an (opaque) JSON body, or an HTTPError carrying a status. -/
inductive HttpResponse where
  | ok (body : ℕ)
  | errStatus (status : ℕ)
deriving DecidableEq

/-- Environment of one `_make_request` call: outcome of the proactive
refresh exchange (if one is attempted), of the first request, of the
401-triggered refresh exchange, and of the retried request. -/
structure RequestEnv where
  proactiveRefresh : RefreshHttpResult
  firstResponse : HttpResponse
  retryRefresh : RefreshHttpResult
  retryResponse : HttpResponse
deriving DecidableEq

/-- How a `_make_request` call terminates: a JSON body, the
"tokens have expired, re-authenticate" exception (AuthExpired), or a
propagated HTTPError. -/
inductive RequestOutcome where
  | ok (body : ℕ)
  | authExpired
  | httpError (status : ℕ)
deriving DecidableEq

/-- Trace of one `_make_request` call: its outcome, the token store after
the call, how many requests to the endpoint were issued, and how many
refresh attempts the 401 handler made. -/
structure RequestTrace where
  outcome : RequestOutcome
  store : StoreState
  requestsIssued : ℕ
  refreshCallsOn401 : ℕ
deriving DecidableEq

/-- `_make_request` (client.py lines 76-101): proactive
`refresh_tokens_if_needed`, headers, request; on a 401 exactly one further
refresh attempt, a single retry with rebuilt headers when it returns true,
and AuthExpired when it returns false; any non-401 error propagates
unchanged.  `none` models an unhandled exception escaping from a malformed
stored timestamp. -/
def make_request (wallet_name : Option String) (api_url : String)
    (store : StoreState) (now : ℚ) (env : RequestEnv) :
    Option RequestTrace :=
  match refresh_tokens_if_needed store now api_url env.proactiveRefresh with
  | none => none
  | some r1 =>
      match get_headers wallet_name r1.store with
      | none => some ⟨RequestOutcome.authExpired, r1.store, 0, 0⟩
      | some _h =>
          match env.firstResponse with
          | HttpResponse.ok body =>
              some ⟨RequestOutcome.ok body, r1.store, 1, 0⟩
          | HttpResponse.errStatus s =>
              if s = 401 then
                match refresh_tokens_if_needed r1.store now api_url
                    env.retryRefresh with
                | none => none
                | some r2 =>
                    if r2.returned then
                      match get_headers wallet_name r2.store with
                      | none =>
                          some ⟨RequestOutcome.authExpired, r2.store, 1, 1⟩
                      | some _h2 =>
                          match env.retryResponse with
                          | HttpResponse.ok body =>
                              some ⟨RequestOutcome.ok body, r2.store, 2, 1⟩
                          | HttpResponse.errStatus s2 =>
                              some ⟨RequestOutcome.httpError s2, r2.store, 2, 1⟩
                    else some ⟨RequestOutcome.authExpired, r2.store, 1, 1⟩
              else some ⟨RequestOutcome.httpError s, r1.store, 1, 0⟩

/-- The pagination envelope the paginator inspects (client.py lines
27-30). -/
structure Pagination where
  has_next : Bool
  current_page : ℕ
deriving DecidableEq

/-- One page's full result object: an opaque payload plus the pagination
envelope. -/
structure PageOutput where
  data : ℕ
  pagination : Pagination
deriving DecidableEq

/-- The `get_all_pages` loop of `paginate` (client.py lines 20-32), with
an explicit fuel bound standing for the absent loop bound (`none` = the
server never reported a last page within `fuel` calls).  The wrapped
operation is abstracted as a function from the page argument to that
page's result; the second component counts the `time.sleep(PAGE_PAUSE)`
pauses, one after each page whose `has_next` is true. -/
def paginateAll (op : ℕ → PageOutput) : ℕ → ℕ → Option (List PageOutput × ℕ)
  | 0, _ => none
  | fuel + 1, page =>
      let output := op page
      if output.pagination.has_next then
        match paginateAll op fuel (output.pagination.current_page + 1) with
        | none => none
        | some (rest, pauses) => some (output :: rest, pauses + 1)
      else some ([output], 0)

/-- A call through the `paginate` wrapper: a single page object, or the
ordered list of all pages. -/
inductive PaginateResult where
  | single (out : PageOutput)
  | pages (outs : List PageOutput)
deriving DecidableEq

/-- The `paginate` decorator (client.py lines 17-35): with
`get_all_pages=True` it runs the loop, otherwise it is a pass-through of
the wrapped operation at the caller's page, with zero pauses. -/
def paginate (op : ℕ → PageOutput) (get_all_pages : Bool) (fuel page : ℕ) :
    Option (PaginateResult × ℕ) :=
  if get_all_pages then
    (paginateAll op fuel page).map fun x => (PaginateResult.pages x.1, x.2)
  else some (PaginateResult.single (op page), 0)

/-- Validation of `get_recent_predictions` (client.py lines 113-114):
`limit <= 0 or limit > 10000` raises ValueError. -/
def recentLimitValid (limit : ℤ) : Bool :=
  ! (limit ≤ 0 ∨ limit > 10000)

/-- `get_recent_predictions` (client.py lines 103-116): the limit check
runs before `_make_request` is entered, so an invalid limit yields the
ValidationError regardless of the store and the network environment. -/
def get_recent_predictions (limit : ℤ) (wallet_name : Option String)
    (api_url : String) (store : StoreState) (now : ℚ) (env : RequestEnv) :
    Option (Except String RequestTrace) :=
  if recentLimitValid limit then
    (make_request wallet_name api_url store now env).map Except.ok
  else some (Except.error "Limit must be a positive integer between 1 and 10000")

/-- Validation of the historical-predictions arguments (client.py lines
178-188, evaluated in source order): dates must satisfy
`start_date < end_date`, the page must be at least 1, and the page size
must lie in 100..10000.  Dates are modelled as rationals under the
datetime order. -/
def historicalValidation (start_date end_date : ℚ) (page page_size : ℤ) :
    Option String :=
  if start_date ≥ end_date then some "start_date must be before end_date"
  else if page < 1 then some "Page must be a positive integer"
  else if page_size < 100 ∨ page_size > 10000 then
    some "Page size must be between 100 and 10000"
  else none

/-- `get_historical_predictions` (client.py lines 156-197): all argument
validation precedes `_make_request`. -/
def get_historical_predictions (start_date end_date : ℚ)
    (page page_size : ℤ) (wallet_name : Option String) (api_url : String)
    (store : StoreState) (now : ℚ) (env : RequestEnv) :
    Option (Except String RequestTrace) :=
  match historicalValidation start_date end_date page page_size with
  | some msg => some (Except.error msg)
  | none => (make_request wallet_name api_url store now env).map Except.ok

/-- `get_historical_predictions_by_hotkey` (client.py lines 247-293): the
hotkey must be exactly 48 characters, checked before the shared
date/page/page-size validation, all before `_make_request`. -/
def get_historical_predictions_by_hotkey (miner_hotkey : String)
    (start_date end_date : ℚ) (page page_size : ℤ)
    (wallet_name : Option String) (api_url : String) (store : StoreState)
    (now : ℚ) (env : RequestEnv) : Option (Except String RequestTrace) :=
  if miner_hotkey.length ≠ 48 then
    some (Except.error "Miner hotkey must be a 48-character SS58 address")
  else
    match historicalValidation start_date end_date page page_size with
    | some msg => some (Except.error msg)
    | none => (make_request wallet_name api_url store now env).map Except.ok

/-- The refresh-token-expiry gate of `refresh_tokens_if_needed` lets
control continue when `expires_at` is absent, or present, parseable and not
yet passed. -/
def refreshGateOpen (e : TimeField) (now : ℚ) : Prop :=
  e = TimeField.absent ∨ ∃ t, e = TimeField.valid t ∧ now < t

/-- Sample record: a refresh token and nothing else. -/
def recWithRT : TokenRecord := { emptyRecord with refresh_token := some "r" }

/-- Sample record: refresh token whose own expiry has passed at time 0. -/
def recRTDeadRefresh : TokenRecord :=
  { recWithRT with expires_at := TimeField.valid (-1) }

/-- Sample record: access token still far from expiry at time 0. -/
def recRTFreshAccess : TokenRecord :=
  { recWithRT with access_expires_at := TimeField.valid 1000 }

/-- Sample record: access token within 30 seconds of expiry at time 0. -/
def recRTDueAccess : TokenRecord :=
  { recWithRT with access_expires_at := TimeField.valid 10 }

/-- Sample record: refresh due, with wallet identity and API URL set. -/
def recRTDueFull : TokenRecord :=
  { recRTDueAccess with wallet_name := some "w", api_url := some "u" }

/-- Sample record: refresh due, with an access token on record. -/
def recDueWithAccess : TokenRecord :=
  { recRTDueFull with access_token := some "a" }

/-- The record `recDueWithAccess` becomes after a successful refresh at
time 0 answering `{"a2", "r2", 100, 7200}`. -/
def recAfterRetry : TokenRecord :=
  { recDueWithAccess with
    access_token := some "a2"
    refresh_token := some "r2"
    access_expires_at := TimeField.valid 100
    expires_at := TimeField.valid 7200 }

/-- Sample record: an access token whose recorded expiries are long past. -/
def recExpiredAccess : TokenRecord :=
  { emptyRecord with
    access_token := some "a"
    access_expires_at := TimeField.valid (-100)
    expires_at := TimeField.valid (-100) }

/-- Sample three-page endpoint: pages 1 and 2 report `has_next` with
`current_page` 1 and 2; page 3 reports no further pages. -/
def opThreePages : ℕ → PageOutput := fun p =>
  if p = 1 then ⟨101, ⟨true, 1⟩⟩
  else if p = 2 then ⟨102, ⟨true, 2⟩⟩
  else ⟨103, ⟨false, 3⟩⟩

/-- C2: `is_expired` returns true exactly when `now ≥ expires_at - buffer`
with `buffer = clamp(0.10 * (expires_at - now), 5, 30)`; absent and
malformed timestamps yield true; the buffer is 5 at lifetime 10, 30 at
lifetime 1000, and 10 at lifetime 100. -/
theorem expiry_policy_matches_spec (now t : ℚ) :
    (is_token_expired TimeField.absent now = true)
    ∧ (is_token_expired TimeField.malformed now = true)
    ∧ (is_token_expired (TimeField.valid t) now = true
        ↔ now ≥ t - min (max ((t - now) * (1 / 10)) 5) 30)
    ∧ smartBuffer 10 = 5 ∧ smartBuffer 1000 = 30 ∧ smartBuffer 100 = 10 := by
  refine ⟨rfl, rfl, ?_, by norm_num [smartBuffer], by norm_num [smartBuffer],
    by norm_num [smartBuffer]⟩
  have hcomm : min (max ((t - now) * (1 / 10)) 5) 30 = smartBuffer (t - now) := by
    rw [smartBuffer, min_comm, max_comm]
  rw [hcomm]
  simp [is_token_expired]

/-- C1, counterexample: a stored record with NO `access_token` at all but a
far-future `expires_at` makes `setup_authentication` short-circuit to
success with zero network calls, refuting "short-circuits ... if and only
if the record has access_token present and the Expiry Policy applied to the
access-token expiry says it is not expired". -/
theorem setup_short_circuit_counterexample :
    setup_authentication (some "w") "u"
        (StoreState.parsed
          { access_token := none, refresh_token := none,
            access_expires_at := TimeField.absent,
            expires_at := TimeField.valid 10000,
            wallet_name := none, api_url := none }) 0
        ⟨none, none, none⟩
      = ⟨true,
         StoreState.parsed
          { access_token := none, refresh_token := none,
            access_expires_at := TimeField.absent,
            expires_at := TimeField.valid 10000,
            wallet_name := none, api_url := none }, 0⟩
    ∧ ({ access_token := none, refresh_token := none,
         access_expires_at := TimeField.absent,
         expires_at := TimeField.valid 10000,
         wallet_name := none, api_url := none } : TokenRecord).access_token
        = none := by
  constructor
  · have hexp : is_token_expired (TimeField.valid 10000) 0 = false := by
      simp [is_token_expired, smartBuffer]
      norm_num
    simp [setup_authentication, setupShortCircuits, hexp]
  · rfl

/-- C1, amended: `setup_authentication` (with a configured wallet)
short-circuits to success with zero network calls if and only if the token
file parses and the Expiry Policy applied to the record's `expires_at`
field (the refresh-token-expiry slot) says it is not expired; neither
`access_token` presence nor `access_expires_at` is consulted.  Two
successive invocations still perform zero network calls on the second when
the first persisted a token whose stored `expires_at` the policy regards as
not expired. -/
theorem setup_short_circuit_amended (wn api : String) (store : StoreState)
    (now : ℚ) (env : AuthEnv) :
    ((setup_authentication (some wn) api store now env).networkCalls = 0
      ↔ setupShortCircuits store now = true)
    ∧ (setupShortCircuits store now = true →
        setup_authentication (some wn) api store now env = ⟨true, store, 0⟩)
    ∧ (∀ ch sg resp, env = ⟨some ch, some sg, some resp⟩ →
        is_token_expired
            (TimeField.valid (now + resp.refresh_expires_in.getD resp.expires_in))
            now = false →
        setup_authentication (some wn) api
            (setup_authentication (some wn) api store now env).store now env
          = ⟨true, (setup_authentication (some wn) api store now env).store, 0⟩) := by
  refine ⟨?_, ?_, ?_⟩
  · by_cases h : setupShortCircuits store now = true
    · simp [setup_authentication, h]
    · obtain ⟨c, s, a⟩ := env
      cases c <;> cases s <;> cases a <;>
        simp [setup_authentication, h]
  · intro h
    simp [setup_authentication, h]
  · rintro ch sg resp rfl hfresh
    by_cases h : setupShortCircuits store now = true
    · simp [setup_authentication, h]
    · have hstore : (setup_authentication (some wn) api store now
          ⟨some ch, some sg, some resp⟩).store
          = StoreState.parsed
            { access_token := some resp.access_token
              refresh_token := some resp.refresh_token
              access_expires_at := TimeField.valid (now + resp.expires_in)
              expires_at :=
                TimeField.valid (now + resp.refresh_expires_in.getD resp.expires_in)
              wallet_name := some wn
              api_url := some api } := by
        simp [setup_authentication, h]
      rw [hstore]
      simp [setup_authentication, setupShortCircuits, hfresh]

/-- C1, witness for the amended theorem. -/
theorem setup_short_circuit_amended_witness :
    setup_authentication (some "w") "u" StoreState.missing 0
        ⟨some ⟨"id", "text"⟩, some ("sig", "ck"),
         some ⟨"at", "rt", 100, some 3600⟩⟩
      = ⟨false, StoreState.missing, 0⟩
    ∨ setup_authentication (some "w") "u"
        (setup_authentication (some "w") "u" StoreState.missing 0
          ⟨some ⟨"id", "text"⟩, some ("sig", "ck"),
           some ⟨"at", "rt", 100, some 3600⟩⟩).store 0
        ⟨some ⟨"id", "text"⟩, some ("sig", "ck"),
         some ⟨"at", "rt", 100, some 3600⟩⟩
      = ⟨true,
         (setup_authentication (some "w") "u" StoreState.missing 0
           ⟨some ⟨"id", "text"⟩, some ("sig", "ck"),
            some ⟨"at", "rt", 100, some 3600⟩⟩).store, 0⟩ := by
  refine Or.inr ?_
  exact (setup_short_circuit_amended "w" "u" StoreState.missing 0
      ⟨some ⟨"id", "text"⟩, some ("sig", "ck"), some ⟨"at", "rt", 100, some 3600⟩⟩).2.2
    ⟨"id", "text"⟩ ("sig", "ck") ⟨"at", "rt", 100, some 3600⟩ rfl
    (by simp [is_token_expired, smartBuffer]; norm_num)

/-- C3: `refresh_tokens_if_needed` returns false with zero network calls
and an unchanged store under each short-circuit, in source order: no
refresh token; refresh-token expiry present and passed (strict, no
buffer); no `access_expires_at`; access token still more than 30 seconds
from expiry.  Only otherwise is the refresh endpoint called (exactly one
network call). -/
theorem refresher_short_circuits (store : StoreState) (now : ℚ)
    (api : String) (env : RefreshHttpResult) :
    ((load_tokens store).refresh_token = none →
      refresh_tokens_if_needed store now api env = some ⟨false, store, 0⟩)
    ∧ (∀ rt t, (load_tokens store).refresh_token = some rt →
        (load_tokens store).expires_at = TimeField.valid t → now ≥ t →
        refresh_tokens_if_needed store now api env = some ⟨false, store, 0⟩)
    ∧ (∀ rt, (load_tokens store).refresh_token = some rt →
        refreshGateOpen (load_tokens store).expires_at now →
        (load_tokens store).access_expires_at = TimeField.absent →
        refresh_tokens_if_needed store now api env = some ⟨false, store, 0⟩)
    ∧ (∀ rt ae, (load_tokens store).refresh_token = some rt →
        refreshGateOpen (load_tokens store).expires_at now →
        (load_tokens store).access_expires_at = TimeField.valid ae →
        now < ae - 30 →
        refresh_tokens_if_needed store now api env = some ⟨false, store, 0⟩)
    ∧ (∀ rt ae, (load_tokens store).refresh_token = some rt →
        refreshGateOpen (load_tokens store).expires_at now →
        (load_tokens store).access_expires_at = TimeField.valid ae →
        ¬ now < ae - 30 →
        ∃ res, refresh_tokens_if_needed store now api env = some res
          ∧ res.networkCalls = 1) := by
  refine ⟨?_, ?_, ?_, ?_, ?_⟩
  · intro h
    simp [refresh_tokens_if_needed, h]
  · intro rt t hrt ht hle
    simp [refresh_tokens_if_needed, hrt, ht, hle]
  · intro rt hrt hgate hae
    rcases hgate with hg | ⟨t, hg, hlt⟩
    · simp [refresh_tokens_if_needed, refreshStep, hrt, hg, hae]
    · simp [refresh_tokens_if_needed, refreshStep, hrt, hg, hae, hlt.not_le]
  · intro rt ae hrt hgate hae hearly
    rcases hgate with hg | ⟨t, hg, hlt⟩
    · simp [refresh_tokens_if_needed, refreshStep, hrt, hg, hae, hearly]
    · simp [refresh_tokens_if_needed, refreshStep, hrt, hg, hae, hlt.not_le,
        hearly]
  · intro rt ae hrt hgate hae hdue
    rcases hgate with hg | ⟨t, hg, hlt⟩
    · cases env <;>
        simp [refresh_tokens_if_needed, refreshStep, refresh_access_token,
          hrt, hg, hae, hdue]
    · cases env <;>
        simp [refresh_tokens_if_needed, refreshStep, refresh_access_token,
          hrt, hg, hae, hlt.not_le, hdue]

/-- C3, witness: each short-circuit and the endpoint-reaching case at
concrete inputs. -/
theorem refresher_short_circuits_witness :
    refresh_tokens_if_needed StoreState.missing 0 "u"
        RefreshHttpResult.transportError = some ⟨false, StoreState.missing, 0⟩
    ∧ refresh_tokens_if_needed (StoreState.parsed recRTDeadRefresh) 0 "u"
        RefreshHttpResult.transportError
        = some ⟨false, StoreState.parsed recRTDeadRefresh, 0⟩
    ∧ refresh_tokens_if_needed (StoreState.parsed recWithRT) 0 "u"
        RefreshHttpResult.transportError
        = some ⟨false, StoreState.parsed recWithRT, 0⟩
    ∧ refresh_tokens_if_needed (StoreState.parsed recRTFreshAccess) 0 "u"
        RefreshHttpResult.transportError
        = some ⟨false, StoreState.parsed recRTFreshAccess, 0⟩
    ∧ ∃ res, refresh_tokens_if_needed (StoreState.parsed recRTDueAccess) 0 "u"
        RefreshHttpResult.transportError = some res ∧ res.networkCalls = 1 := by
  refine ⟨?_, ?_, ?_, ?_, ?_⟩
  · exact (refresher_short_circuits StoreState.missing 0 "u"
      RefreshHttpResult.transportError).1 rfl
  · exact (refresher_short_circuits _ 0 "u"
      RefreshHttpResult.transportError).2.1 "r" (-1) rfl rfl (by norm_num)
  · exact (refresher_short_circuits _ 0 "u"
      RefreshHttpResult.transportError).2.2.1 "r" rfl (Or.inl rfl) rfl
  · exact (refresher_short_circuits _ 0 "u"
      RefreshHttpResult.transportError).2.2.2.1 "r" 1000 rfl (Or.inl rfl) rfl
      (by norm_num)
  · exact (refresher_short_circuits _ 0 "u"
      RefreshHttpResult.transportError).2.2.2.2 "r" 10 rfl (Or.inl rfl) rfl
      (by norm_num)

/-- C6: once the refresher reaches the point of calling the endpoint, any
failure of that call — transport error, non-2xx status, or malformed
body — yields false, one network call, and a token store identical to the
one before the call (no save). -/
theorem refresher_failure_preserves_state (store : StoreState) (now : ℚ)
    (api : String) (env : RefreshHttpResult) (rt : String) (ae : ℚ)
    (hrt : (load_tokens store).refresh_token = some rt)
    (hgate : refreshGateOpen (load_tokens store).expires_at now)
    (hae : (load_tokens store).access_expires_at = TimeField.valid ae)
    (hdue : ¬ now < ae - 30)
    (hfail : ∀ resp, env ≠ RefreshHttpResult.ok resp) :
    refresh_tokens_if_needed store now api env = some ⟨false, store, 1⟩ := by
  rcases hgate with hg | ⟨t, hg, hlt⟩
  · cases env
    case ok resp => exact absurd rfl (hfail resp)
    all_goals
      simp [refresh_tokens_if_needed, refreshStep, refresh_access_token,
        hrt, hg, hae, hdue]
  · cases env
    case ok resp => exact absurd rfl (hfail resp)
    all_goals
      simp [refresh_tokens_if_needed, refreshStep, refresh_access_token,
        hrt, hg, hae, hlt.not_le, hdue]

/-- C6, witness. -/
theorem refresher_failure_preserves_state_witness :
    refresh_tokens_if_needed (StoreState.parsed recRTDueAccess) 0 "u"
        (RefreshHttpResult.httpError 500)
      = some ⟨false, StoreState.parsed recRTDueAccess, 1⟩ :=
  refresher_failure_preserves_state _ 0 "u" (RefreshHttpResult.httpError 500)
    "r" 10 rfl (Or.inl rfl) rfl (by norm_num)
    (fun resp h => RefreshHttpResult.noConfusion h)

/-- C7: a successful refresh persists exactly the prior record with
`access_token`, `refresh_token`, `access_expires_at` and `expires_at`
replaced by the response's values; every other field — in particular
`wallet_name` and `api_url` — is carried over unchanged, and the function
returns true after one network call. -/
theorem refresher_success_merges_record (store : StoreState) (now : ℚ)
    (api : String) (resp : AuthTokensResponse) (rt : String) (ae : ℚ)
    (hrt : (load_tokens store).refresh_token = some rt)
    (hgate : refreshGateOpen (load_tokens store).expires_at now)
    (hae : (load_tokens store).access_expires_at = TimeField.valid ae)
    (hdue : ¬ now < ae - 30) :
    refresh_tokens_if_needed store now api (RefreshHttpResult.ok resp)
      = some ⟨true,
          StoreState.parsed
            { load_tokens store with
              access_token := some resp.access_token
              refresh_token := some resp.refresh_token
              access_expires_at := TimeField.valid (now + resp.expires_in)
              expires_at :=
                TimeField.valid
                  (now + resp.refresh_expires_in.getD resp.expires_in) },
          1⟩ := by
  rcases hgate with hg | ⟨t, hg, hlt⟩
  · simp [refresh_tokens_if_needed, refreshStep, refresh_access_token,
      mergeRefreshed, hrt, hg, hae, hdue]
  · simp [refresh_tokens_if_needed, refreshStep, refresh_access_token,
      mergeRefreshed, hrt, hg, hae, hlt.not_le, hdue]

/-- C7, witness. -/
theorem refresher_success_merges_record_witness :
    refresh_tokens_if_needed (StoreState.parsed recRTDueFull) 0 "u"
        (RefreshHttpResult.ok ⟨"a2", "r2", 100, some 7200⟩)
      = some ⟨true,
          StoreState.parsed
            { load_tokens (StoreState.parsed recRTDueFull) with
              access_token := some "a2"
              refresh_token := some "r2"
              access_expires_at := TimeField.valid (0 + 100)
              expires_at := TimeField.valid (0 + (some (7200 : ℚ)).getD 100) },
          1⟩ :=
  refresher_success_merges_record _ 0 "u" ⟨"a2", "r2", 100, some 7200⟩ "r" 10
    rfl (Or.inl rfl) rfl (by norm_num)

/-- Helper: whenever `refresh_tokens_if_needed` returns true, the store it
leaves behind holds an access token (the merged record's `access_token` is
the response's). -/
theorem refresh_true_store_has_token (store : StoreState) (now : ℚ)
    (api : String) (env : RefreshHttpResult) (res : RefreshResult)
    (h : refresh_tokens_if_needed store now api env = some res)
    (ht : res.returned = true) :
    ∃ tok, (load_tokens res.store).access_token = some tok := by
  simp only [refresh_tokens_if_needed, refreshStep, refresh_access_token] at h
  split at h
  · cases h
    simp_all
  · split at h
    · exact absurd h (by simp)
    · split at h
      · cases h
        simp_all
      · split at h
        · cases h
          simp_all
        · exact absurd h (by simp)
        · split at h
          · cases h
            simp_all
          · split at h
            · cases h
              simp_all [load_tokens, mergeRefreshed]
            · cases h
              simp_all
    · split at h
      · cases h
        simp_all
      · exact absurd h (by simp)
      · split at h
        · cases h
          simp_all
        · split at h
          · cases h
            simp_all [load_tokens, mergeRefreshed]
          · cases h
            simp_all

/-- C4: in `_make_request`, once the first request has come back 401, the
executor makes exactly one refresh attempt; if that attempt returns true
the request is retried exactly once with rebuilt headers and the retry's
outcome is returned; if it returns false, AuthExpired is raised with no
further request; and a non-401 error status propagates unchanged with no
retry and no 401-triggered refresh. -/
theorem retry_once_on_401 (w api : String) (store : StoreState) (now : ℚ)
    (env : RequestEnv) (r1 : RefreshResult) (tok : String)
    (h1 : refresh_tokens_if_needed store now api env.proactiveRefresh = some r1)
    (h2 : (load_tokens r1.store).access_token = some tok) :
    (∀ r2, env.firstResponse = HttpResponse.errStatus 401 →
      refresh_tokens_if_needed r1.store now api env.retryRefresh = some r2 →
      r2.returned = true →
      make_request (some w) api store now env
        = some ⟨(match env.retryResponse with
                  | HttpResponse.ok body => RequestOutcome.ok body
                  | HttpResponse.errStatus s2 => RequestOutcome.httpError s2),
                r2.store, 2, 1⟩)
    ∧ (∀ r2, env.firstResponse = HttpResponse.errStatus 401 →
        refresh_tokens_if_needed r1.store now api env.retryRefresh = some r2 →
        r2.returned = false →
        make_request (some w) api store now env
          = some ⟨RequestOutcome.authExpired, r2.store, 1, 1⟩)
    ∧ (∀ s, env.firstResponse = HttpResponse.errStatus s → s ≠ 401 →
        make_request (some w) api store now env
          = some ⟨RequestOutcome.httpError s, r1.store, 1, 0⟩) := by
  refine ⟨?_, ?_, ?_⟩
  · intro r2 hfr hr2 hret
    obtain ⟨tok2, htok2⟩ :=
      refresh_true_store_has_token r1.store now api env.retryRefresh r2 hr2 hret
    cases hresp : env.retryResponse <;>
      simp [make_request, get_headers, get_valid_access_token, h1, h2, hfr,
        hr2, hret, htok2, hresp]
  · intro r2 hfr hr2 hret
    simp [make_request, get_headers, get_valid_access_token, h1, h2, hfr,
      hr2, hret]
  · intro s hfr hne
    simp [make_request, get_headers, get_valid_access_token, h1, h2, hfr, hne]

/-- C4, witness: the three 401-handling behaviours at concrete inputs. -/
theorem retry_once_on_401_witness :
    make_request (some "w") "u" (StoreState.parsed recDueWithAccess) 0
        ⟨RefreshHttpResult.transportError, HttpResponse.errStatus 401,
         RefreshHttpResult.ok ⟨"a2", "r2", 100, some 7200⟩, HttpResponse.ok 7⟩
      = some ⟨RequestOutcome.ok 7, StoreState.parsed recAfterRetry, 2, 1⟩
    ∧ make_request (some "w") "u" (StoreState.parsed recDueWithAccess) 0
        ⟨RefreshHttpResult.transportError, HttpResponse.errStatus 401,
         RefreshHttpResult.transportError, HttpResponse.ok 7⟩
      = some ⟨RequestOutcome.authExpired,
              StoreState.parsed recDueWithAccess, 1, 1⟩
    ∧ make_request (some "w") "u" (StoreState.parsed recDueWithAccess) 0
        ⟨RefreshHttpResult.transportError, HttpResponse.errStatus 500,
         RefreshHttpResult.transportError, HttpResponse.ok 7⟩
      = some ⟨RequestOutcome.httpError 500,
              StoreState.parsed recDueWithAccess, 1, 0⟩ := by
  have hfailRefresh :
      refresh_tokens_if_needed (StoreState.parsed recDueWithAccess) 0 "u"
        RefreshHttpResult.transportError
        = some ⟨false, StoreState.parsed recDueWithAccess, 1⟩ := by
    norm_num [refresh_tokens_if_needed, refreshStep, refresh_access_token,
      recDueWithAccess, recRTDueFull, recRTDueAccess, recWithRT, emptyRecord,
      load_tokens]
  have hokRefresh :
      refresh_tokens_if_needed (StoreState.parsed recDueWithAccess) 0 "u"
        (RefreshHttpResult.ok ⟨"a2", "r2", 100, some 7200⟩)
        = some ⟨true, StoreState.parsed recAfterRetry, 1⟩ := by
    norm_num [refresh_tokens_if_needed, refreshStep, refresh_access_token,
      mergeRefreshed, recDueWithAccess, recAfterRetry, recRTDueFull,
      recRTDueAccess, recWithRT, emptyRecord, load_tokens]
  refine ⟨?_, ?_, ?_⟩
  · exact (retry_once_on_401 "w" "u" (StoreState.parsed recDueWithAccess) 0
      ⟨RefreshHttpResult.transportError, HttpResponse.errStatus 401,
       RefreshHttpResult.ok ⟨"a2", "r2", 100, some 7200⟩, HttpResponse.ok 7⟩
      ⟨false, StoreState.parsed recDueWithAccess, 1⟩ "a"
      hfailRefresh rfl).1
      ⟨true, StoreState.parsed recAfterRetry, 1⟩ rfl hokRefresh rfl
  · exact (retry_once_on_401 "w" "u" (StoreState.parsed recDueWithAccess) 0
      ⟨RefreshHttpResult.transportError, HttpResponse.errStatus 401,
       RefreshHttpResult.transportError, HttpResponse.ok 7⟩
      ⟨false, StoreState.parsed recDueWithAccess, 1⟩ "a"
      hfailRefresh rfl).2.1
      ⟨false, StoreState.parsed recDueWithAccess, 1⟩ rfl hfailRefresh rfl
  · exact (retry_once_on_401 "w" "u" (StoreState.parsed recDueWithAccess) 0
      ⟨RefreshHttpResult.transportError, HttpResponse.errStatus 500,
       RefreshHttpResult.transportError, HttpResponse.ok 7⟩
      ⟨false, StoreState.parsed recDueWithAccess, 1⟩ "a"
      hfailRefresh rfl).2.2 500 rfl (by norm_num)

/-- C5: in all-pages mode the paginator, started at the caller's page,
collects each page's full result object in order, follows
`current_page + 1` and pauses once after every page reporting `has_next`,
and stops at (and includes) the first page with `has_next` false; given
three pages chained that way it issues exactly the three calls and returns
exactly three results with two pauses.  In single-page mode it is a
pass-through with zero pauses. -/
theorem paginator_collects_pages (op : ℕ → PageOutput) (fuel p1 c1 c2 : ℕ) :
    ((op p1).pagination.has_next = true →
      (op p1).pagination.current_page = c1 →
      (op (c1 + 1)).pagination.has_next = true →
      (op (c1 + 1)).pagination.current_page = c2 →
      (op (c2 + 1)).pagination.has_next = false →
      paginate op true (fuel + 3) p1
        = some (PaginateResult.pages [op p1, op (c1 + 1), op (c2 + 1)], 2))
    ∧ ((op p1).pagination.has_next = false →
        paginate op true (fuel + 1) p1
          = some (PaginateResult.pages [op p1], 0))
    ∧ paginate op false fuel p1 = some (PaginateResult.single (op p1), 0) := by
  refine ⟨?_, ?_, ?_⟩
  · intro h1 h2 h3 h4 h5
    simp [paginate, paginateAll, h1, h2, h3, h4, h5]
  · intro h1
    simp [paginate, paginateAll, h1]
  · simp [paginate]

/-- C5, witness: the spec's three-page scenario, and single-page
pass-through. -/
theorem paginator_collects_pages_witness :
    paginate opThreePages true 3 1
      = some (PaginateResult.pages
          [opThreePages 1, opThreePages 2, opThreePages 3], 2)
    ∧ paginate opThreePages false 3 1
      = some (PaginateResult.single (opThreePages 1), 0) := by
  constructor
  · exact (paginator_collects_pages opThreePages 0 1 1 2).1 rfl rfl rfl rfl rfl
  · exact (paginator_collects_pages opThreePages 3 1 1 2).2.2

/-- C8: each client-side argument check fires before `_make_request` is
entered — an out-of-contract argument yields the ValidationError for every
store and network environment, with no network call and no store access —
while in-contract arguments hand control to the request layer unchanged. -/
theorem validation_precedes_network (limit : ℤ) (sd ed : ℚ) (pg ps : ℤ)
    (hk : String) (w : Option String) (api : String) (store : StoreState)
    (now : ℚ) (env : RequestEnv) :
    ((limit < 1 ∨ limit > 10000) →
      get_recent_predictions limit w api store now env
        = some (Except.error
            "Limit must be a positive integer between 1 and 10000"))
    ∧ (1 ≤ limit → limit ≤ 10000 →
        get_recent_predictions limit w api store now env
          = (make_request w api store now env).map Except.ok)
    ∧ (sd ≥ ed →
        get_historical_predictions sd ed pg ps w api store now env
          = some (Except.error "start_date must be before end_date"))
    ∧ (sd < ed → pg < 1 →
        get_historical_predictions sd ed pg ps w api store now env
          = some (Except.error "Page must be a positive integer"))
    ∧ (sd < ed → 1 ≤ pg → ps < 100 ∨ ps > 10000 →
        get_historical_predictions sd ed pg ps w api store now env
          = some (Except.error "Page size must be between 100 and 10000"))
    ∧ (sd < ed → 1 ≤ pg → 100 ≤ ps → ps ≤ 10000 →
        get_historical_predictions sd ed pg ps w api store now env
          = (make_request w api store now env).map Except.ok)
    ∧ (hk.length ≠ 48 →
        get_historical_predictions_by_hotkey hk sd ed pg ps w api store now env
          = some (Except.error
              "Miner hotkey must be a 48-character SS58 address"))
    ∧ (hk.length = 48 →
        get_historical_predictions_by_hotkey hk sd ed pg ps w api store now env
          = get_historical_predictions sd ed pg ps w api store now env) := by
  refine ⟨?_, ?_, ?_, ?_, ?_, ?_, ?_, ?_⟩
  · intro h
    have hv : recentLimitValid limit = false := by
      simp [recentLimitValid]
      omega
    simp [get_recent_predictions, hv]
  · intro h1 h2
    have hv : recentLimitValid limit = true := by
      simp [recentLimitValid]
      omega
    simp [get_recent_predictions, hv]
  · intro h
    simp [get_historical_predictions, historicalValidation, h]
  · intro h1 h2
    simp [get_historical_predictions, historicalValidation,
      not_le.mpr h1, h2]
  · intro h1 h2 h3
    have hpg : ¬ pg < 1 := by omega
    simp [get_historical_predictions, historicalValidation,
      not_le.mpr h1, hpg, h3]
  · intro h1 h2 h3 h4
    have hpg : ¬ pg < 1 := by omega
    have hps : ¬ (ps < 100 ∨ ps > 10000) := by omega
    simp [get_historical_predictions, historicalValidation,
      not_le.mpr h1, hpg, hps]
  · intro h
    simp [get_historical_predictions_by_hotkey, h]
  · intro h
    simp [get_historical_predictions_by_hotkey, get_historical_predictions, h]

/-- C8, witness: limits 0 and 10001 raise while 1 and 10000 reach the
request layer; equal dates raise; page size 99 raises while 100 and 10000
do not; a 47-character hotkey raises. -/
theorem validation_precedes_network_witness :
    get_recent_predictions 0 (some "w") "u" StoreState.missing 0
        ⟨RefreshHttpResult.transportError, HttpResponse.ok 7,
         RefreshHttpResult.transportError, HttpResponse.ok 7⟩
      = some (Except.error
          "Limit must be a positive integer between 1 and 10000")
    ∧ get_recent_predictions 10001 (some "w") "u" StoreState.missing 0
        ⟨RefreshHttpResult.transportError, HttpResponse.ok 7,
         RefreshHttpResult.transportError, HttpResponse.ok 7⟩
      = some (Except.error
          "Limit must be a positive integer between 1 and 10000")
    ∧ get_recent_predictions 1 (some "w") "u" StoreState.missing 0
        ⟨RefreshHttpResult.transportError, HttpResponse.ok 7,
         RefreshHttpResult.transportError, HttpResponse.ok 7⟩
      = (make_request (some "w") "u" StoreState.missing 0
          ⟨RefreshHttpResult.transportError, HttpResponse.ok 7,
           RefreshHttpResult.transportError, HttpResponse.ok 7⟩).map Except.ok
    ∧ get_recent_predictions 10000 (some "w") "u" StoreState.missing 0
        ⟨RefreshHttpResult.transportError, HttpResponse.ok 7,
         RefreshHttpResult.transportError, HttpResponse.ok 7⟩
      = (make_request (some "w") "u" StoreState.missing 0
          ⟨RefreshHttpResult.transportError, HttpResponse.ok 7,
           RefreshHttpResult.transportError, HttpResponse.ok 7⟩).map Except.ok
    ∧ get_historical_predictions 5 5 1 100 (some "w") "u" StoreState.missing 0
        ⟨RefreshHttpResult.transportError, HttpResponse.ok 7,
         RefreshHttpResult.transportError, HttpResponse.ok 7⟩
      = some (Except.error "start_date must be before end_date")
    ∧ get_historical_predictions 0 5 1 99 (some "w") "u" StoreState.missing 0
        ⟨RefreshHttpResult.transportError, HttpResponse.ok 7,
         RefreshHttpResult.transportError, HttpResponse.ok 7⟩
      = some (Except.error "Page size must be between 100 and 10000")
    ∧ get_historical_predictions 0 5 1 100 (some "w") "u" StoreState.missing 0
        ⟨RefreshHttpResult.transportError, HttpResponse.ok 7,
         RefreshHttpResult.transportError, HttpResponse.ok 7⟩
      = (make_request (some "w") "u" StoreState.missing 0
          ⟨RefreshHttpResult.transportError, HttpResponse.ok 7,
           RefreshHttpResult.transportError, HttpResponse.ok 7⟩).map Except.ok
    ∧ get_historical_predictions 0 5 1 10000 (some "w") "u"
        StoreState.missing 0
        ⟨RefreshHttpResult.transportError, HttpResponse.ok 7,
         RefreshHttpResult.transportError, HttpResponse.ok 7⟩
      = (make_request (some "w") "u" StoreState.missing 0
          ⟨RefreshHttpResult.transportError, HttpResponse.ok 7,
           RefreshHttpResult.transportError, HttpResponse.ok 7⟩).map Except.ok
    ∧ get_historical_predictions_by_hotkey "short" 0 5 1 100 (some "w") "u"
        StoreState.missing 0
        ⟨RefreshHttpResult.transportError, HttpResponse.ok 7,
         RefreshHttpResult.transportError, HttpResponse.ok 7⟩
      = some (Except.error
          "Miner hotkey must be a 48-character SS58 address") := by
  refine ⟨?_, ?_, ?_, ?_, ?_, ?_, ?_, ?_, ?_⟩
  · exact (validation_precedes_network 0 0 0 1 100 "short" (some "w") "u"
      StoreState.missing 0 _).1 (by norm_num)
  · exact (validation_precedes_network 10001 0 0 1 100 "short" (some "w") "u"
      StoreState.missing 0 _).1 (by norm_num)
  · exact (validation_precedes_network 1 0 0 1 100 "short" (some "w") "u"
      StoreState.missing 0 _).2.1 (by norm_num) (by norm_num)
  · exact (validation_precedes_network 10000 0 0 1 100 "short" (some "w") "u"
      StoreState.missing 0 _).2.1 (by norm_num) (by norm_num)
  · exact (validation_precedes_network 1 5 5 1 100 "short" (some "w") "u"
      StoreState.missing 0 _).2.2.1 (by norm_num)
  · exact (validation_precedes_network 1 0 5 1 99 "short" (some "w") "u"
      StoreState.missing 0 _).2.2.2.2.1 (by norm_num) (by norm_num)
      (by norm_num)
  · exact (validation_precedes_network 1 0 5 1 100 "short" (some "w") "u"
      StoreState.missing 0 _).2.2.2.2.2.1 (by norm_num) (by norm_num)
      (by norm_num) (by norm_num)
  · exact (validation_precedes_network 1 0 5 1 10000 "short" (some "w") "u"
      StoreState.missing 0 _).2.2.2.2.2.1 (by norm_num) (by norm_num)
      (by norm_num) (by norm_num)
  · exact (validation_precedes_network 1 0 5 1 100 "short" (some "w") "u"
      StoreState.missing 0 _).2.2.2.2.2.2.1 (by decide)

/-- C9: with a configured wallet, `get_valid_access_token` hands back the
stored `access_token` verbatim and `_get_headers` wraps it in a bearer
header, with no expiry field consulted: the same token comes back whatever
the two expiry fields hold, so a stale token is still attached and 401 is
the only staleness signal. -/
theorem bearer_header_ignores_expiry (w : String) (r : TokenRecord)
    (tok : String) (x y : TimeField) (h : r.access_token = some tok) :
    get_valid_access_token (some w) (StoreState.parsed r) = some tok
    ∧ get_headers (some w) (StoreState.parsed r)
        = some ⟨"Bearer " ++ tok, "application/json"⟩
    ∧ get_valid_access_token (some w)
        (StoreState.parsed { r with access_expires_at := x, expires_at := y })
        = some tok := by
  refine ⟨?_, ?_, ?_⟩ <;>
    simp [get_valid_access_token, get_headers, load_tokens, h]

/-- C9, witness: a record whose access token expired 100 seconds ago is
still returned and attached. -/
theorem bearer_header_ignores_expiry_witness :
    get_valid_access_token (some "w") (StoreState.parsed recExpiredAccess)
      = some "a"
    ∧ get_headers (some "w") (StoreState.parsed recExpiredAccess)
      = some ⟨"Bearer " ++ "a", "application/json"⟩ :=
  ⟨(bearer_header_ignores_expiry "w" recExpiredAccess "a"
      TimeField.absent TimeField.absent rfl).1,
   (bearer_header_ignores_expiry "w" recExpiredAccess "a"
      TimeField.absent TimeField.absent rfl).2.1⟩

/-- C10, counterexample: when the server sends `refresh_expires_in` equal
to `expires_in`, the refreshed record has `access_expires_at = expires_at`
even though `refresh_expires_in` is present, refuting "access_expires_at ==
expires_at holds exactly when refresh_expires_in is absent". -/
theorem expiry_coupling_counterexample :
    refresh_access_token "rt" "u"
        (RefreshHttpResult.ok ⟨"a", "r", 100, some 100⟩) 0
      = some ⟨"a", "r", 100, 100⟩
    ∧ ({ access_token := "a", refresh_token := "r", expires_in := 100,
         refresh_expires_in := some 100 } : AuthTokensResponse).refresh_expires_in
        ≠ none := by
  constructor
  · norm_num [refresh_access_token]
  · simp

/-- C10, amended: both writers compute the two expiry fields from the one
captured `now`; `access_expires_at ≤ expires_at` whenever the server's
`refresh_expires_in ≥ expires_in`; and `access_expires_at = expires_at`
holds exactly when the effective `refresh_expires_in` (defaulting to
`expires_in` when absent) equals `expires_in` — in particular whenever
`refresh_expires_in` is absent, but also when it is present with that same
value. -/
theorem expiry_coupling_amended (now : ℚ) (resp : AuthTokensResponse)
    (rt api wn : String) (store : StoreState) (ch : AuthChallenge)
    (sg : String × String) :
    (refresh_access_token rt api (RefreshHttpResult.ok resp) now
      = some ⟨resp.access_token, resp.refresh_token, now + resp.expires_in,
              now + resp.refresh_expires_in.getD resp.expires_in⟩)
    ∧ (∀ rei, resp.refresh_expires_in = some rei → resp.expires_in ≤ rei →
        now + resp.expires_in
          ≤ now + resp.refresh_expires_in.getD resp.expires_in)
    ∧ (resp.refresh_expires_in = none →
        now + resp.expires_in
          = now + resp.refresh_expires_in.getD resp.expires_in)
    ∧ ((now + resp.expires_in
          = now + resp.refresh_expires_in.getD resp.expires_in)
        ↔ resp.refresh_expires_in.getD resp.expires_in = resp.expires_in)
    ∧ (setupShortCircuits store now = false →
        (setup_authentication (some wn) api store now
            ⟨some ch, some sg, some resp⟩).store
          = StoreState.parsed
              { access_token := some resp.access_token
                refresh_token := some resp.refresh_token
                access_expires_at := TimeField.valid (now + resp.expires_in)
                expires_at :=
                  TimeField.valid
                    (now + resp.refresh_expires_in.getD resp.expires_in)
                wallet_name := some wn
                api_url := some api }) := by
  refine ⟨?_, ?_, ?_, ?_, ?_⟩
  · simp [refresh_access_token]
  · intro rei h hle
    rw [h]
    simpa using hle
  · intro h
    rw [h, Option.getD_none]
  · rw [add_right_inj]
    exact eq_comm
  · intro h
    simp [setup_authentication, h]

/-- C10, witness for the amended theorem. -/
theorem expiry_coupling_amended_witness :
    (0 : ℚ) + 100 ≤ 0 + (some (7200 : ℚ)).getD 100
    ∧ (setup_authentication (some "w") "u" StoreState.missing 0
        ⟨some ⟨"i", "t"⟩, some ("s", "c"), some ⟨"a", "r", 100, some 7200⟩⟩).store
      = StoreState.parsed
          { access_token := some "a"
            refresh_token := some "r"
            access_expires_at := TimeField.valid (0 + 100)
            expires_at := TimeField.valid (0 + (some (7200 : ℚ)).getD 100)
            wallet_name := some "w"
            api_url := some "u" } :=
  ⟨(expiry_coupling_amended 0 ⟨"a", "r", 100, some 7200⟩ "rt" "u" "w"
      StoreState.missing ⟨"i", "t"⟩ ("s", "c")).2.1 7200 rfl (by norm_num),
   (expiry_coupling_amended 0 ⟨"a", "r", 100, some 7200⟩ "rt" "u" "w"
      StoreState.missing ⟨"i", "t"⟩ ("s", "c")).2.2.2.2 rfl⟩

end Precog
